import Mathlib

/-!
Verification of the cloudflare-ddns repository: a shallow embedding of its
record cache, provider-API client, reconciliation loop and the IPv4/IPv6
address-suffix rewriters, together with theorems settling the specification
claims about them.

Rust strings are modelled as `List Char`; `str::split` on a one-character
separator is `splitChar`, `Vec::join` is `joinChar`, and `str::split("::")`
is `splitColonColon`.  Fallible Rust code (index/arithmetic panics,
`Option::unwrap`) is modelled with `Option`, `none` standing for a panic.
-/

set_option autoImplicit false

/-- Rust `s.split(c)` for a single-character separator `c`: always returns at
least one (possibly empty) part, e.g. `"" ↦ [""]`, `"a:b" ↦ ["a", "b"]`. -/
def splitChar (c : Char) : List Char → List (List Char)
  | [] => [[]]
  | x :: xs =>
    if x = c then [] :: splitChar c xs
    else
      match splitChar c xs with
      | [] => [[x]]
      | g :: gs => (x :: g) :: gs

/-- Rust `parts.join(c)` for a single-character separator. -/
def joinChar (c : Char) : List (List Char) → List Char
  | [] => []
  | [g] => g
  | g :: gs => g ++ c :: joinChar c gs

/-- Rust `s.split("::")`: greedy left-to-right non-overlapping matching of the
two-colon separator. -/
def splitColonColon : List Char → List (List Char)
  | ':' :: ':' :: xs => [] :: splitColonColon xs
  | x :: xs =>
    match splitColonColon xs with
    | [] => [[x]]
    | g :: gs => (x :: g) :: gs
  | [] => [[]]

/-- Rust `s.contains("::")`. -/
def containsColonColon : List Char → Bool
  | ':' :: ':' :: _ => true
  | _ :: xs => containsColonColon xs
  | [] => false

theorem splitChar_ne_nil (c : Char) (s : List Char) : splitChar c s ≠ [] := by
  induction s with
  | nil => simp [splitChar]
  | cons x xs ih =>
    simp only [splitChar]
    split
    · simp
    · cases h : splitChar c xs with
      | nil => simp
      | cons g gs => simp

theorem not_mem_of_mem_splitChar {c : Char} {s : List Char} {g : List Char}
    (hg : g ∈ splitChar c s) : c ∉ g := by
  induction s generalizing g with
  | nil =>
    simp [splitChar] at hg
    simp [hg]
  | cons x xs ih =>
    simp only [splitChar] at hg
    by_cases hx : x = c
    · rw [if_pos hx] at hg
      rcases List.mem_cons.mp hg with h | h
      · simp [h]
      · exact ih h
    · rw [if_neg hx] at hg
      cases hsp : splitChar c xs with
      | nil => exact absurd hsp (splitChar_ne_nil c xs)
      | cons g0 gs =>
        rw [hsp] at hg
        rcases List.mem_cons.mp hg with h | h
        · subst h
          intro hmem
          rcases List.mem_cons.mp hmem with h' | h'
          · exact hx h'.symm
          · exact ih (hsp ▸ List.mem_cons_self g0 gs) h'
        · exact ih (hsp ▸ List.mem_cons.mpr (Or.inr h))

theorem splitChar_of_not_mem {c : Char} {g : List Char} (h : c ∉ g) :
    splitChar c g = [g] := by
  induction g with
  | nil => rfl
  | cons x xs ih =>
    have hx : x ≠ c := fun hxc => h (hxc ▸ List.mem_cons_self x xs)
    have hxs : c ∉ xs := fun hm => h (List.mem_cons.mpr (Or.inr hm))
    simp only [splitChar, if_neg hx, ih hxs]

theorem splitChar_append_cons {c : Char} {g : List Char} (t : List Char)
    (h : c ∉ g) : splitChar c (g ++ c :: t) = g :: splitChar c t := by
  induction g with
  | nil => simp [splitChar]
  | cons x xs ih =>
    have hx : x ≠ c := fun hxc => h (hxc ▸ List.mem_cons_self x xs)
    have hxs : c ∉ xs := fun hm => h (List.mem_cons.mpr (Or.inr hm))
    show splitChar c (x :: (xs ++ c :: t)) = (x :: xs) :: splitChar c t
    simp only [splitChar, if_neg hx, ih hxs]

theorem splitChar_joinChar {c : Char} {l : List (List Char)} (h1 : l ≠ [])
    (h2 : ∀ g ∈ l, c ∉ g) : splitChar c (joinChar c l) = l := by
  induction l with
  | nil => exact absurd rfl h1
  | cons g gs ih =>
    cases gs with
    | nil =>
      simp only [joinChar]
      exact splitChar_of_not_mem (h2 g (List.mem_cons_self g []))
    | cons g' gs' =>
      have hjoin : joinChar c (g :: g' :: gs') = g ++ c :: joinChar c (g' :: gs') := rfl
      rw [hjoin, splitChar_append_cons _ (h2 g (List.mem_cons_self g _))]
      rw [ih (by simp) (fun x hx => h2 x (List.mem_cons.mpr (Or.inr hx)))]

/-- Embedding of `replace_ipv4_suffix` from `src/main.rs`.  The Rust code
splices `suffix_parts` over the tail of `ip_parts`; the index computation
`ip_parts.len() - suffix_parts.len()` panics on underflow, modelled by
`none`. -/
def replace_ipv4_suffix (ip suffix : List Char) : Option (List Char) :=
  let ip_parts := splitChar '.' ip
  let suffix_parts := splitChar '.' suffix
  if suffix_parts.length ≤ ip_parts.length then
    some (joinChar '.' (ip_parts.take (ip_parts.length - suffix_parts.length) ++ suffix_parts))
  else none

/-- Embedding of `replace_ipv6_suffix` from `src/main.rs`.  When the address
contains `::` it is first expanded: the parts left and right of the first
`::` are split on `:` and `8 - left - right` `"0000"` groups are inserted
between them (underflow of that subtraction panics, modelled by `none`);
then, expanded or not, the trailing suffix groups are spliced in as in the
IPv4 case. -/
def replace_ipv6_suffix (ip suffix : List Char) : Option (List Char) :=
  match (if containsColonColon ip then
           let ip_parts := splitColonColon ip
           let suffix_parts := splitChar ':' (ip_parts.getD 1 [])
           let prefix_parts := splitChar ':' (ip_parts.getD 0 [])
           if prefix_parts.length + suffix_parts.length ≤ 8 then
             some (joinChar ':' (prefix_parts ++
               List.replicate (8 - prefix_parts.length - suffix_parts.length)
                 ['0', '0', '0', '0'] ++ suffix_parts))
           else none
         else some ip) with
  | none => none
  | some ip_str =>
    let ip_parts := splitChar ':' ip_str
    let suffix_parts := splitChar ':' suffix
    if suffix_parts.length ≤ ip_parts.length then
      some (joinChar ':' (ip_parts.take (ip_parts.length - suffix_parts.length) ++ suffix_parts))
    else none

/-- String-level wrapper of `replace_ipv4_suffix`, used by the reconciliation
loop. -/
def replace_ipv4_suffix_str (ip suffix : String) : Option String :=
  (replace_ipv4_suffix ip.toList suffix.toList).map List.asString

/-- String-level wrapper of `replace_ipv6_suffix`, used by the reconciliation
loop. -/
def replace_ipv6_suffix_str (ip suffix : String) : Option String :=
  (replace_ipv6_suffix ip.toList suffix.toList).map List.asString

example : replace_ipv4_suffix "1.2.3.4".toList "9.9".toList = some "1.2.9.9".toList := by decide
example : replace_ipv4_suffix "10.0.0.1".toList "5".toList = some "10.0.0.5".toList := by decide
example : replace_ipv6_suffix "2001:db8::1".toList "ab:cd".toList =
    some "2001:db8:0000:0000:0000:0000:ab:cd".toList := by decide

/-! ## The record cache (`src/cloudflare/cache.rs`) -/

/-- Structure `DnsRecord` from `src/cloudflare/cache.rs`. -/
structure DnsRecord where
  id : String
  zone_id : String
  content : String
deriving DecidableEq

/-- Structure `Cache` from `src/cloudflare/cache.rs`: a zone-id list and a map from the
encoded key string to a record; the `HashMap` is modelled as a function. -/
structure Cache where
  zones : List String
  dns_records : String → Option DnsRecord

/-- Constructor `Cache::new`. -/
def Cache.new : Cache := ⟨[], fun _ => none⟩

/-- Method `Cache::zones_cached`: true iff the zone list is non-empty. -/
def Cache.zones_cached (c : Cache) : Bool := !c.zones.isEmpty

/-- Method `Cache::get_zones`. -/
def Cache.get_zones (c : Cache) : List String := c.zones

/-- Method `Cache::get_dns_record`: lookup under the key `format!("{}_{}", record_type, domain)`. -/
def Cache.get_dns_record (c : Cache) (domain record_type : String) : Option DnsRecord :=
  c.dns_records (record_type ++ "_" ++ domain)

/-- Method `Cache::add_zone`: `Vec::push` at the end of the zone list. -/
def Cache.add_zone (c : Cache) (zone_id : String) : Cache :=
  { c with zones := c.zones ++ [zone_id] }

/-- Method `Cache::set_dns_record`: `HashMap::insert` under the encoded key (last
write wins). -/
def Cache.set_dns_record (c : Cache) (domain record_type record_id zone_id content : String) :
    Cache :=
  { c with dns_records := fun k =>
      if k = record_type ++ "_" ++ domain then some ⟨record_id, zone_id, content⟩
      else c.dns_records k }

/-- The mutating cache operations, for stating lifetime properties. -/
inductive CacheOp where
  | addZone (zone_id : String)
  | setRecord (domain record_type record_id zone_id content : String)

/-- Apply one mutating operation to a cache. -/
def applyOp (c : Cache) : CacheOp → Cache
  | .addZone z => c.add_zone z
  | .setRecord d t i z ct => c.set_dns_record d t i z ct

/-- Run a sequence of mutating operations. -/
def runOps : Cache → List CacheOp → Cache
  | c, [] => c
  | c, op :: ops => runOps (applyOp c op) ops

/-- Whether an operation writes the given encoded cache key. -/
def writesKey (k : String) : CacheOp → Bool
  | .addZone _ => false
  | .setRecord d t _ _ _ => t ++ "_" ++ d == k

/-- Whether an operation is a `setRecord` for exactly the given (domain, type)
pair. -/
def writesPair (domain record_type : String) : CacheOp → Bool
  | .addZone _ => false
  | .setRecord d t _ _ _ => d == domain && t == record_type

/-- Whether an operation is an `addZone`. -/
def isAddZone : CacheOp → Bool
  | .addZone _ => true
  | .setRecord _ _ _ _ _ => false

/-! ## The provider API client (`src/cloudflare.rs`) -/

/-- Structure `CloudflareZone` from `src/cloudflare.rs`. -/
structure CloudflareZone where
  id : String
deriving DecidableEq

/-- Structure `CloudflareDnsRecord` from `src/cloudflare.rs`. -/
structure CloudflareDnsRecord where
  id : String
  name : String
  content : String
  record_type : String
deriving DecidableEq

/-- Structure `CloudflareApiResponse` from `src/cloudflare.rs`: the provider's response
envelope after JSON decoding. -/
structure CloudflareApiResponse (V : Type) where
  success : Bool
  errors : List String
  result : Option V

/-- The envelope-unwrapping step shared by `fetch_cloudflare_api`: on
`success` the code calls `Option::unwrap` on the payload, which panics when
the payload is absent (`none` models the panic); on failure it returns the
formatted error. -/
def fetch_api_envelope_step {V : Type} (api_response : CloudflareApiResponse V) :
    Option (Except String V) :=
  match api_response.success with
  | true =>
    match api_response.result with
    | some v => some (.ok v)
    | none => none
  | false =>
    some (.error ("Error in get request to Cloudflare API: " ++ toString api_response.errors))

/-- The envelope-unwrapping step of `put_cloudflare_api`; identical to the GET
one except for the error text. -/
def put_api_envelope_step {V : Type} (api_response : CloudflareApiResponse V) :
    Option (Except String V) :=
  match api_response.success with
  | true =>
    match api_response.result with
    | some v => some (.ok v)
    | none => none
  | false =>
    some (.error ("Error in put request to Cloudflare API: " ++ toString api_response.errors))

/-- The environment a `CloudflareApi` session runs against: the (already
envelope-unwrapped) outcome of each HTTP request the client can make. -/
structure Env where
  zonesResult : Except String (List CloudflareZone)
  recordsResult : String → Except String (List CloudflareDnsRecord)
  putResult : String → String → Except String CloudflareDnsRecord

/-- One HTTP request issued by the client, for counting/tracing. -/
inductive Request where
  | getZones
  | getRecords (zone : String)
  | put (path body : String)
deriving DecidableEq

/-- Method `CloudflareApi::fetch_cloudflare_zones`: fetch and cache all zones on the
first call, answer from the cache afterwards.  Returns the result, the new
cache, and the requests issued. -/
def fetch_cloudflare_zones (env : Env) (c : Cache) :
    Except String (List String) × Cache × List Request :=
  if !c.zones_cached then
    match env.zonesResult with
    | .error e => (.error e, c, [.getZones])
    | .ok zones =>
      let c' := zones.foldl (fun c z => c.add_zone z.id) c
      (.ok c'.get_zones, c', [.getZones])
  else (.ok c.get_zones, c, [])

/-- The per-zone record-fetch loop inside `fetch_cloudflare_dns_record`: for
each zone in order, fetch its A/AAAA records and write all of them into the
cache; the first failure propagates, keeping the cache writes made so far. -/
def fetchRecordsLoop (env : Env) (c : Cache) :
    List String → Except String Unit × Cache × List Request
  | [] => (.ok (), c, [])
  | zone :: zs =>
    match env.recordsResult zone with
    | .error e => (.error e, c, [.getRecords zone])
    | .ok dns_records =>
      let c' := dns_records.foldl
        (fun c r => c.set_dns_record r.name r.record_type r.id zone r.content) c
      let out := fetchRecordsLoop env c' zs
      (out.1, out.2.1, .getRecords zone :: out.2.2)

/-- Method `CloudflareApi::fetch_cloudflare_dns_record`: on a cache miss, fetch the
zones and then every zone's address records into the cache; finally answer
from the cache, failing with "Unable to find record" if the key is still
absent. -/
def fetch_cloudflare_dns_record (env : Env) (c : Cache) (domain record_type : String) :
    Except String DnsRecord × Cache × List Request :=
  if (c.get_dns_record domain record_type).isNone then
    match fetch_cloudflare_zones env c with
    | (.error e, c1, r1) => (.error e, c1, r1)
    | (.ok zones, c1, r1) =>
      match fetchRecordsLoop env c1 zones with
      | (.error e, c2, r2) => (.error e, c2, r1 ++ r2)
      | (.ok _, c2, r2) =>
        (match c2.get_dns_record domain record_type with
         | some record => .ok record
         | none => .error "Unable to find record", c2, r1 ++ r2)
  else
    (match c.get_dns_record domain record_type with
     | some record => .ok record
     | none => .error "Unable to find record", c, [])

/-- The JSON body `format!("{{\"content\": \"{}\"}}", content)` sent by
`update_cloudflare_dns_record`. -/
def putBody (content : String) : String := "\x7b\"content\": \"" ++ content ++ "\"\x7d"

/-- The PUT path `format!("zones/{}/dns_records/{}", record.zone_id, record.id)`. -/
def putPath (record : DnsRecord) : String :=
  "zones/" ++ record.zone_id ++ "/dns_records/" ++ record.id

/-- Method `CloudflareApi::update_cloudflare_dns_record`: resolve the record, PUT the
new content, verify the echoed content, and only then overwrite the cache
entry. -/
def update_cloudflare_dns_record (env : Env) (c : Cache)
    (domain record_type content : String) :
    Except String DnsRecord × Cache × List Request :=
  match fetch_cloudflare_dns_record env c domain record_type with
  | (.error cause, c1, r1) =>
    (.error ("Unable to find record for " ++ domain ++ " " ++ record_type ++
      " (Cause: " ++ cause ++ ")"), c1, r1)
  | (.ok record, c1, r1) =>
    match env.putResult (putPath record) (putBody content) with
    | .error e => (.error e, c1, r1 ++ [.put (putPath record) (putBody content)])
    | .ok api_response =>
      let new_ip := api_response.content
      if new_ip ≠ content then
        (.error "Unable to update dns record in Cloudflare API: Record not updated",
         c1, r1 ++ [.put (putPath record) (putBody content)])
      else
        let c2 := c1.set_dns_record domain record_type record.id record.zone_id new_ip
        (match c2.get_dns_record domain record_type with
         | some record' => .ok record'
         | none => .error "Unable to fetch updated IP from Cloudflare API",
         c2, r1 ++ [.put (putPath record) (putBody content)])

/-! ## The reconciliation loop (`src/main.rs`) -/

/-- Structure `DomainRegistration` from `src/cloudflare.rs`. -/
structure DomainRegistration where
  domain : String
  v4_disabled : Bool
  v4_suffix : Option String
  v6_disabled : Bool
  v6_suffix : Option String

/-- Function `check_and_conditionally_update_domain` from `src/main.rs`: resolve the
current record; report a missing record; otherwise update when the content
differs or force is set.  Returns the new cache, the requests issued and the
report lines printed. -/
def check_and_conditionally_update_domain (env : Env) (c : Cache)
    (name record_type new_ip : String) (force : Bool) :
    Cache × List Request × List String :=
  match fetch_cloudflare_dns_record env c name record_type with
  | (.error _, c1, r1) =>
    (c1, r1, [name ++ ": No DNS Record Found (Update IP: " ++ new_ip ++ ")"])
  | (.ok record, c1, r1) =>
    let old_ip := record.content
    if old_ip ≠ new_ip || force then
      match update_cloudflare_dns_record env c1 name record_type new_ip with
      | (.error _, c2, r2) =>
        (c2, r1 ++ r2, [name ++ ": Failed to update DNS Record (Update IP: " ++ new_ip ++ ")"])
      | (.ok _, c2, r2) => (c2, r1 ++ r2, [name ++ ": " ++ old_ip ++ " -> " ++ new_ip])
    else (c1, r1, [])

/-- The per-family desired content: the discovered v4 address with the
registration's suffix applied via `replace_ipv4_suffix` when present. -/
def applySuffix4 (v4_ip : String) : Option String → Option String
  | some s => replace_ipv4_suffix_str v4_ip s
  | none => some v4_ip

/-- The per-family desired content for v6. -/
def applySuffix6 (v6_ip : String) : Option String → Option String
  | some s => replace_ipv6_suffix_str v6_ip s
  | none => some v6_ip

/-- One iteration of the `update_domains` loop body for one registration:
the v4 branch then the v6 branch.  `none` models a panic in a suffix
rewrite. -/
def processRegistration (env : Env) (v4_ip v6_ip : String) (force : Bool)
    (c : Cache) (r : DomainRegistration) : Option (Cache × List Request × List String) :=
  match (if r.v4_disabled then some (c, [], []) else
          match applySuffix4 v4_ip r.v4_suffix with
          | none => none
          | some new_ip =>
            some (check_and_conditionally_update_domain env c r.domain "A" new_ip force)) with
  | none => none
  | some (c1, q1, p1) =>
    match (if r.v6_disabled then some (c1, [], []) else
            match applySuffix6 v6_ip r.v6_suffix with
            | none => none
            | some new_ip =>
              some (check_and_conditionally_update_domain env c1 r.domain "AAAA" new_ip force)) with
    | none => none
    | some (c2, q2, p2) => some (c2, q1 ++ q2, p1 ++ p2)

/-- The per-domain loop of `update_domains`, over the registered domains in
order. -/
def runDomainLoop (env : Env) (v4_ip v6_ip : String) (force : Bool) :
    Cache → List DomainRegistration → Option (Cache × List Request × List String)
  | c, [] => some (c, [], [])
  | c, r :: rs =>
    match processRegistration env v4_ip v6_ip force c r with
    | none => none
    | some (c1, q1, p1) =>
      match runDomainLoop env v4_ip v6_ip force c1 rs with
      | none => none
      | some (c2, q2, p2) => some (c2, q1 ++ q2, p1 ++ p2)

/-- Model of Rust `str::parse::<u64>().ok()` for the persisted timestamp:
accepts a non-empty all-digit string and returns its decimal value (the
optional leading sign and the u64 range limit are not modelled; the
timestamps involved are plain digit strings well inside range). -/
def parseU64 (s : String) : Option Nat :=
  if s.toList ≠ [] ∧ s.toList.all Char.isDigit then
    some (s.toList.foldl (fun n c => n * 10 + (c.toNat - 48)) 0)
  else none

/-- Function `update_domains` from `src/main.rs` after address discovery: the run-level
short-circuit (skip everything when both addresses are unchanged, force is
unset, and the persisted last-update timestamp is less than 12 hours old),
then the per-domain loop on a fresh client.  The boolean in the result is
true exactly on the skip path. -/
def update_domains (cfg : String → Option String) (now : Nat) (env : Env)
    (v4_ip v6_ip : String) (force : Bool) (domains : List DomainRegistration) :
    Option (Bool × Cache × List Request × List String) :=
  if cfg "last_ipv4" = some v4_ip ∧ cfg "last_ipv6" = some v6_ip ∧ force = false then
    let last_update := (cfg "last_update").bind parseU64
    if last_update.getD 0 + 60 * 60 * 12 > now then
      some (true, Cache.new, [], [])
    else
      (runDomainLoop env v4_ip v6_ip force Cache.new domains).map (fun x => (false, x))
  else
    (runDomainLoop env v4_ip v6_ip force Cache.new domains).map (fun x => (false, x))

/-- Number of enabled address families of one registration. -/
def registrationEnabledCount (r : DomainRegistration) : Nat :=
  (if r.v4_disabled then 0 else 1) + (if r.v6_disabled then 0 else 1)

/-- Number of enabled (domain, type) pairs of a registration list. -/
def enabledCount (ds : List DomainRegistration) : Nat :=
  (ds.map registrationEnabledCount).sum

/-- Whether every suffix rewrite a registration needs succeeds (no panic). -/
def registrationSuffixesOk (v4_ip v6_ip : String) (r : DomainRegistration) : Bool :=
  (r.v4_disabled || (applySuffix4 v4_ip r.v4_suffix).isSome) &&
  (r.v6_disabled || (applySuffix6 v6_ip r.v6_suffix).isSome)

/-! ## Claims about the address-suffix rewriters -/

/-- Claim C4: for every address string with exactly 4 dot-separated parts and
every suffix with at most 4 dot-separated parts, `replace_ipv4_suffix`
replaces the trailing parts of the address with the suffix parts in order and
rejoins with a dot, with no numeric validation; in particular
`rewrite("1.2.3.4", "9.9") = "1.2.9.9"` and
`rewrite("10.0.0.1", "5") = "10.0.0.5"`. -/
theorem c4_ipv4_rewrite_splices_trailing_parts :
    (∀ ip suffix : List Char,
      (splitChar '.' ip).length = 4 →
      (splitChar '.' suffix).length ≤ 4 →
      replace_ipv4_suffix ip suffix =
        some (joinChar '.'
          ((splitChar '.' ip).take (4 - (splitChar '.' suffix).length) ++
            splitChar '.' suffix)))
    ∧ replace_ipv4_suffix_str "1.2.3.4" "9.9" = some "1.2.9.9"
    ∧ replace_ipv4_suffix_str "10.0.0.1" "5" = some "10.0.0.5" := by
  refine ⟨?_, by decide, by decide⟩
  intro ip suffix h4 hN
  simp only [replace_ipv4_suffix, h4]
  rw [if_pos hN]

/-- Witness for C4 at a concrete input. -/
theorem c4_witness :
    replace_ipv4_suffix "172.16.0.9".toList "7.7.7".toList =
      some (joinChar '.'
        ((splitChar '.' "172.16.0.9".toList).take
          (4 - (splitChar '.' "7.7.7".toList).length) ++
          splitChar '.' "7.7.7".toList)) :=
  c4_ipv4_rewrite_splices_trailing_parts.1 _ _ (by decide) (by decide)

/-- Claim C10: the IPv4 rewrite is total exactly under the precondition that
the suffix's dot-separated part count does not exceed the address's; when the
precondition is violated (e.g. a 4-part address with a 5-part suffix) the
length subtraction underflows and the Rust code panics (modelled `none`). -/
theorem c10_ipv4_rewrite_totality_precondition :
    (∀ ip suffix : List Char,
      (splitChar '.' suffix).length ≤ (splitChar '.' ip).length →
      (replace_ipv4_suffix ip suffix).isSome = true)
    ∧ replace_ipv4_suffix "1.2.3.4".toList "9.9.9.9.9".toList = none := by
  refine ⟨?_, by decide⟩
  intro ip suffix h
  simp only [replace_ipv4_suffix]
  rw [if_pos h]
  rfl

/-- Witness for C10 at a concrete input. -/
theorem c10_witness : (replace_ipv4_suffix "10.0.0.1".toList "8.8".toList).isSome = true :=
  c10_ipv4_rewrite_totality_precondition.1 _ _ (by decide)

/-- Claim C3: for an IPv6 address containing `::` whose left and right group
counts sum to at most 8 and a suffix of at most 8 colon-separated groups, the
rewrite first inserts `8 - left - right` `"0000"` groups between the left and
right groups and then replaces the trailing suffix-many groups of the
8-group expansion; in particular
`rewrite("2001:db8::1", "ab:cd") = "2001:db8:0000:0000:0000:0000:ab:cd"`. -/
theorem c3_ipv6_rewrite_expands_then_splices :
    (∀ ip suffix : List Char,
      containsColonColon ip = true →
      (splitChar ':' ((splitColonColon ip).getD 0 [])).length +
        (splitChar ':' ((splitColonColon ip).getD 1 [])).length ≤ 8 →
      (splitChar ':' suffix).length ≤ 8 →
      replace_ipv6_suffix ip suffix =
        some (joinChar ':'
          (((splitChar ':' ((splitColonColon ip).getD 0 []) ++
             List.replicate
               (8 - (splitChar ':' ((splitColonColon ip).getD 0 [])).length -
                 (splitChar ':' ((splitColonColon ip).getD 1 [])).length)
               ['0', '0', '0', '0'] ++
             splitChar ':' ((splitColonColon ip).getD 1 [])).take
              (8 - (splitChar ':' suffix).length)) ++ splitChar ':' suffix)))
    ∧ replace_ipv6_suffix_str "2001:db8::1" "ab:cd" =
        some "2001:db8:0000:0000:0000:0000:ab:cd" := by
  refine ⟨?_, by decide⟩
  intro ip suffix hc hLR hN
  set L := splitChar ':' ((splitColonColon ip).getD 0 []) with hL
  set R := splitChar ':' ((splitColonColon ip).getD 1 []) with hR
  set S := splitChar ':' suffix with hS
  set E := L ++ List.replicate (8 - L.length - R.length) ['0', '0', '0', '0'] ++ R with hE
  have hE8 : E.length = 8 := by
    rw [hE]
    simp only [List.length_append, List.length_replicate]
    omega
  have hEcolon : ∀ g ∈ E, ':' ∉ g := by
    intro g hg
    rw [hE] at hg
    rcases List.mem_append.mp hg with hg' | hg'
    · rcases List.mem_append.mp hg' with hg'' | hg''
      · exact not_mem_of_mem_splitChar hg''
      · rw [List.eq_of_mem_replicate hg'']
        decide
    · exact not_mem_of_mem_splitChar hg'
  have hEne : E ≠ [] := by
    intro h
    rw [h] at hE8
    simp at hE8
  simp only [replace_ipv6_suffix, hc, if_true]
  rw [if_pos hLR]
  simp only []
  rw [splitChar_joinChar hEne hEcolon, hE8]
  rw [if_pos hN]

/-- Witness for C3 at the concrete input from the specification. -/
theorem c3_witness :
    replace_ipv6_suffix "2001:db8::1".toList "ab:cd".toList =
      some (joinChar ':'
        (((splitChar ':' ((splitColonColon "2001:db8::1".toList).getD 0 []) ++
           List.replicate
             (8 - (splitChar ':' ((splitColonColon "2001:db8::1".toList).getD 0 [])).length -
               (splitChar ':' ((splitColonColon "2001:db8::1".toList).getD 1 [])).length)
             ['0', '0', '0', '0'] ++
           splitChar ':' ((splitColonColon "2001:db8::1".toList).getD 1 [])).take
            (8 - (splitChar ':' "ab:cd".toList).length)) ++ splitChar ':' "ab:cd".toList)) :=
  c3_ipv6_rewrite_expands_then_splices.1 _ _ (by decide) (by decide) (by decide)

/-! ## Claims about the envelope handling and the cache -/

/-- Claim C5 (evaluation at the failing input): when the decoded envelope has
`success = true` but no `result` payload, both the GET and the PUT unwrap
steps hit `Option::unwrap` on `None`, i.e. the process panics (`none`)
instead of returning a decode error; shown here for both payload types the
client uses. -/
theorem c5_success_without_payload_panics :
    fetch_api_envelope_step (V := CloudflareDnsRecord) ⟨true, [], none⟩ = none
    ∧ put_api_envelope_step (V := CloudflareDnsRecord) ⟨true, [], none⟩ = none
    ∧ fetch_api_envelope_step (V := List CloudflareZone) ⟨true, [], none⟩ = none :=
  ⟨rfl, rfl, rfl⟩

theorem dns_records_runOps_none {k : String} :
    ∀ (ops : List CacheOp) (c : Cache), c.dns_records k = none →
      (∀ op ∈ ops, writesKey k op = false) → (runOps c ops).dns_records k = none := by
  intro ops
  induction ops with
  | nil => intro c hc _; exact hc
  | cons op ops ih =>
    intro c hc hops
    cases op with
    | addZone z =>
      exact ih _ hc (fun op' hop' => hops op' (List.mem_cons.mpr (Or.inr hop')))
    | setRecord d t i z ct =>
      have hkey : ¬(t ++ "_" ++ d) = k := by
        have := hops _ (List.mem_cons_self _ _)
        simpa [writesKey] using this
      apply ih
      · show (if k = t ++ "_" ++ d then some ⟨i, z, ct⟩ else c.dns_records k) = none
        rw [if_neg (fun h => hkey h.symm)]
        exact hc
      · exact fun op' hop' => hops op' (List.mem_cons.mpr (Or.inr hop'))

/-- Claim C7 (amended): cache lookups and writes are keyed on the encoded
string `type_domain`; a key whose encoding was never written reads as
nothing; a `setRecord` followed by a `getRecord` of the same pair returns
exactly the written record; a later `setRecord` of the same pair fully
replaces the stored record. -/
theorem c7_cache_get_set_semantics :
    (∀ (ops : List CacheOp) (domain record_type : String),
      (∀ op ∈ ops, writesKey (record_type ++ "_" ++ domain) op = false) →
      (runOps Cache.new ops).get_dns_record domain record_type = none)
    ∧ (∀ (c : Cache) (d t i z ct : String),
      (c.set_dns_record d t i z ct).get_dns_record d t = some ⟨i, z, ct⟩)
    ∧ (∀ (c : Cache) (d t i z ct i' z' ct' : String),
      ((c.set_dns_record d t i z ct).set_dns_record d t i' z' ct').get_dns_record d t =
        some ⟨i', z', ct'⟩) := by
  refine ⟨?_, ?_, ?_⟩
  · intro ops domain record_type hops
    exact dns_records_runOps_none ops Cache.new rfl hops
  · intro c d t i z ct
    simp [Cache.get_dns_record, Cache.set_dns_record]
  · intro c d t i z ct i' z' ct'
    simp [Cache.get_dns_record, Cache.set_dns_record]

/-- Counterexample for C7 as stated: the encoded key is not injective in the
(domain, type) pair, so a pair never written by `setRecord` can still read a
record.  Writing the pair (domain `"c"`, type `"A_b"`) makes the never-written
pair (domain `"b_c"`, type `"A"`) readable. -/
theorem c7_counterexample_key_collision :
    ([CacheOp.setRecord "c" "A_b" "i" "z" "ip"].all
      (fun op => !(writesPair "b_c" "A" op)) = true)
    ∧ (runOps Cache.new [CacheOp.setRecord "c" "A_b" "i" "z" "ip"]).get_dns_record "b_c" "A" =
        some ⟨"i", "z", "ip"⟩ := by
  constructor
  · decide
  · decide

/-- Witness for C7 at concrete inputs. -/
theorem c7_witness :
    (runOps Cache.new [CacheOp.addZone "zone9"]).get_dns_record "host.example" "A" = none :=
  c7_cache_get_set_semantics.1 [CacheOp.addZone "zone9"] "host.example" "A" (by decide)

theorem zones_cached_runOps (ops : List CacheOp) :
    ∀ c : Cache, (runOps c ops).zones_cached = (c.zones_cached || ops.any isAddZone) := by
  induction ops with
  | nil => intro c; simp [runOps]
  | cons op ops ih =>
    intro c
    have hstep : (applyOp c op).zones_cached = (c.zones_cached || isAddZone op) := by
      cases op with
      | addZone z =>
        simp [applyOp, Cache.add_zone, Cache.zones_cached, isAddZone]
      | setRecord d t i z ct =>
        simp [applyOp, Cache.set_dns_record, Cache.zones_cached, isAddZone]
    show (runOps (applyOp c op) ops).zones_cached = _
    rw [ih, hstep, List.any_cons, Bool.or_assoc]

/-- Claim C8: starting from a fresh cache, `zones_cached` is true exactly when
some `addZone` has been performed, and once true no operation ever makes it
false again. -/
theorem c8_zones_cached_monotone :
    (∀ ops : List CacheOp, (runOps Cache.new ops).zones_cached = ops.any isAddZone)
    ∧ (∀ (c : Cache) (op : CacheOp),
        c.zones_cached = true → (applyOp c op).zones_cached = true) := by
  constructor
  · intro ops
    rw [zones_cached_runOps]
    simp [Cache.new, Cache.zones_cached]
  · intro c op hc
    cases op with
    | addZone z => simp [applyOp, Cache.add_zone, Cache.zones_cached]
    | setRecord d t i z ct =>
      simpa [applyOp, Cache.set_dns_record, Cache.zones_cached] using hc

/-- Witness for C8 at concrete inputs. -/
theorem c8_witness :
    (applyOp (Cache.new.add_zone "z0") (CacheOp.setRecord "d" "A" "i" "z" "ip")).zones_cached =
      true :=
  c8_zones_cached_monotone.2 (Cache.new.add_zone "z0") (CacheOp.setRecord "d" "A" "i" "z" "ip")
    (by decide)

/-! ## Claims about the resolver and the update protocol -/

theorem fetch_hit (env : Env) {c : Cache} {d t : String} {r : DnsRecord}
    (h : c.get_dns_record d t = some r) :
    fetch_cloudflare_dns_record env c d t = (.ok r, c, []) := by
  simp [fetch_cloudflare_dns_record, h]

theorem fetch_ok_caches {env : Env} {c : Cache} {d t : String} {rec : DnsRecord}
    {c' : Cache} {reqs : List Request}
    (h : fetch_cloudflare_dns_record env c d t = (.ok rec, c', reqs)) :
    c'.get_dns_record d t = some rec := by
  unfold fetch_cloudflare_dns_record at h
  split at h
  · split at h
    · simp at h
    · split at h
      · simp at h
      · split at h
        next hlook =>
          simp only [Prod.mk.injEq, Except.ok.injEq] at h
          obtain ⟨h1, h2, h3⟩ := h
          subst h2
          rw [hlook, h1]
        next hlook => simp at h
  · split at h
    next hlook =>
      simp only [Prod.mk.injEq, Except.ok.injEq] at h
      obtain ⟨h1, h2, h3⟩ := h
      subst h2
      rw [hlook, h1]
    next hlook => simp at h

/-- Claim C1 (amended): when the PUT succeeds at the API level but echoes a
content different from the requested one, `update_cloudflare_dns_record`
fails with the mismatch error and performs no cache write after the resolve
step: the resulting cache is exactly the cache left by the resolve step, and
in particular when the (domain, type) entry was already cached before the
call the cache entry is unchanged from before the call. -/
theorem c1_update_mismatch_leaves_cache :
    ∀ (env : Env) (c0 : Cache) (domain record_type content : String)
      (rec : DnsRecord) (c1 : Cache) (r1 : List Request) (echoed : CloudflareDnsRecord),
      fetch_cloudflare_dns_record env c0 domain record_type = (.ok rec, c1, r1) →
      env.putResult (putPath rec) (putBody content) = .ok echoed →
      echoed.content ≠ content →
      update_cloudflare_dns_record env c0 domain record_type content =
        (.error "Unable to update dns record in Cloudflare API: Record not updated",
         c1, r1 ++ [.put (putPath rec) (putBody content)])
      ∧ c1.get_dns_record domain record_type = some rec
      ∧ ((c0.get_dns_record domain record_type).isSome = true → c1 = c0) := by
  intro env c0 domain record_type content rec c1 r1 echoed hfetch hput hne
  refine ⟨?_, fetch_ok_caches hfetch, ?_⟩
  · unfold update_cloudflare_dns_record
    rw [hfetch]
    simp only [hput]
    rw [if_pos hne]
  · intro hsome
    obtain ⟨r0, hr0⟩ := Option.isSome_iff_exists.mp hsome
    have := fetch_hit env hr0
    rw [hfetch] at this
    simp only [Prod.mk.injEq] at this
    exact this.2.1

/-- A provider environment whose one zone `"z1"` holds one A record for
domain `"d"` with content `"203.0.113.1"`, and whose PUT echoes the wrong
content `"7.7.7.7"`. -/
def envMismatchMiss : Env where
  zonesResult := .ok [⟨"z1"⟩]
  recordsResult := fun z => if z = "z1" then .ok [⟨"r1", "d", "203.0.113.1", "A"⟩] else .ok []
  putResult := fun _ _ => .ok ⟨"r1", "d", "7.7.7.7", "A"⟩

/-- Counterexample for C1 as stated: start from an empty cache and update
domain `"d"` to `"2.2.2.2"`; the PUT echoes `"7.7.7.7"`, so the call fails
with the mismatch error — but the cache entry for (`"d"`, `"A"`) is not what
it was before the call: it was absent and is now populated (by the resolve
step) with the provider's pre-update record. -/
theorem c1_counterexample_cache_miss_population :
    Cache.new.get_dns_record "d" "A" = none
    ∧ (update_cloudflare_dns_record envMismatchMiss Cache.new "d" "A" "2.2.2.2").1 =
        .error "Unable to update dns record in Cloudflare API: Record not updated"
    ∧ (update_cloudflare_dns_record envMismatchMiss Cache.new "d" "A" "2.2.2.2").2.1.get_dns_record
        "d" "A" = some ⟨"r1", "z1", "203.0.113.1"⟩ := by
  refine ⟨rfl, ?_, ?_⟩
  · rfl
  · rfl

/-- A cache already holding the record for (`"d"`, `"A"`). -/
def cacheHit : Cache := Cache.new.set_dns_record "d" "A" "r1" "z1" "203.0.113.1"

/-- Witness for C1: the amended theorem applied at a concrete input where the
record is already cached before the call. -/
theorem c1_witness :
    update_cloudflare_dns_record envMismatchMiss cacheHit "d" "A" "2.2.2.2" =
      (.error "Unable to update dns record in Cloudflare API: Record not updated",
       cacheHit, [] ++ [.put (putPath ⟨"r1", "z1", "203.0.113.1"⟩) (putBody "2.2.2.2")])
    ∧ cacheHit.get_dns_record "d" "A" = some ⟨"r1", "z1", "203.0.113.1"⟩
    ∧ ((Cache.get_dns_record cacheHit "d" "A").isSome = true → cacheHit = cacheHit) :=
  c1_update_mismatch_leaves_cache envMismatchMiss cacheHit "d" "A" "2.2.2.2"
    ⟨"r1", "z1", "203.0.113.1"⟩ cacheHit [] ⟨"r1", "d", "7.7.7.7", "A"⟩
    (by rfl) (by rfl) (by decide)

theorem foldl_set_dns_record_zones (zone : String) (recs : List CloudflareDnsRecord) :
    ∀ c : Cache,
      (recs.foldl (fun c r => c.set_dns_record r.name r.record_type r.id zone r.content) c).zones =
        c.zones := by
  induction recs with
  | nil => intro c; rfl
  | cons r rs ih =>
    intro c
    rw [List.foldl_cons, ih]
    rfl

theorem fetchRecordsLoop_cons_error (env : Env) (z : String) (zs : List String)
    (c : Cache) (e : String) (h : env.recordsResult z = .error e) :
    fetchRecordsLoop env c (z :: zs) = (.error e, c, [.getRecords z]) := by
  simp [fetchRecordsLoop, h]

theorem fetchRecordsLoop_cons_ok (env : Env) (z : String) (zs : List String)
    (c : Cache) (recs : List CloudflareDnsRecord) (h : env.recordsResult z = .ok recs) :
    fetchRecordsLoop env c (z :: zs) =
      ((fetchRecordsLoop env
          (recs.foldl (fun c r => c.set_dns_record r.name r.record_type r.id z r.content) c)
          zs).1,
       (fetchRecordsLoop env
          (recs.foldl (fun c r => c.set_dns_record r.name r.record_type r.id z r.content) c)
          zs).2.1,
       .getRecords z ::
         (fetchRecordsLoop env
            (recs.foldl (fun c r => c.set_dns_record r.name r.record_type r.id z r.content) c)
            zs).2.2) := by
  simp [fetchRecordsLoop, h]

theorem fetchRecordsLoop_zones (env : Env) (zs : List String) :
    ∀ c : Cache, (fetchRecordsLoop env c zs).2.1.zones = c.zones := by
  induction zs with
  | nil => intro c; rfl
  | cons z zs ih =>
    intro c
    rcases hres : env.recordsResult z with e | recs
    · rw [fetchRecordsLoop_cons_error env z zs c e hres]
    · rw [fetchRecordsLoop_cons_ok env z zs c recs hres]
      dsimp only
      rw [ih, foldl_set_dns_record_zones]

theorem fetchRecordsLoop_ok_reqs (env : Env) (zs : List String) :
    ∀ c : Cache, (fetchRecordsLoop env c zs).1 = .ok () →
      (fetchRecordsLoop env c zs).2.2 = zs.map Request.getRecords := by
  induction zs with
  | nil => intro c _; rfl
  | cons z zs ih =>
    intro c hok
    rcases hres : env.recordsResult z with e | recs
    · rw [fetchRecordsLoop_cons_error env z zs c e hres] at hok
      simp at hok
    · rw [fetchRecordsLoop_cons_ok env z zs c recs hres] at hok ⊢
      dsimp only at hok ⊢
      rw [List.map_cons]
      exact congrArg _ (ih _ hok)

theorem fetch_zones_ok_shape {env : Env} {c : Cache} {zones : List String}
    {c1 : Cache} {r1 : List Request}
    (h : fetch_cloudflare_zones env c = (.ok zones, c1, r1)) :
    zones = c1.zones ∧ (r1 = [] ∨ r1 = [Request.getZones]) := by
  unfold fetch_cloudflare_zones at h
  split at h
  · split at h
    · simp at h
    · simp only [Prod.mk.injEq, Except.ok.injEq] at h
      obtain ⟨h1, h2, h3⟩ := h
      subst h2
      exact ⟨h1.symm, Or.inr h3.symm⟩
  · simp only [Prod.mk.injEq, Except.ok.injEq] at h
    obtain ⟨h1, h2, h3⟩ := h
    subst h2
    exact ⟨h1.symm, Or.inl h3.symm⟩

theorem fetch_ok_counts {env : Env} {c : Cache} {d t : String} {rec : DnsRecord}
    {c' : Cache} {reqs : List Request}
    (h : fetch_cloudflare_dns_record env c d t = (.ok rec, c', reqs)) :
    reqs.count Request.getZones ≤ 1 ∧
    ∀ z : String, reqs.count (Request.getRecords z) ≤ c'.zones.count z := by
  unfold fetch_cloudflare_dns_record at h
  split at h
  · split at h
    · simp at h
    · next zones c1 r1 hz =>
      split at h
      · simp at h
      · next u c2 r2 hloop =>
        split at h
        next hlook =>
          simp only [Prod.mk.injEq, Except.ok.injEq] at h
          obtain ⟨h1, h2, h3⟩ := h
          subst h2
          subst h3
          obtain ⟨hzs, hr1⟩ := fetch_zones_ok_shape hz
          have hl1 : (fetchRecordsLoop env c1 zones).1 = .ok () := by rw [hloop]
          have hl2 := fetchRecordsLoop_ok_reqs env zones c1 hl1
          have hl3 := fetchRecordsLoop_zones env zones c1
          rw [hloop] at hl2 hl3
          dsimp only at hl2 hl3
          have hczones : c2.zones = zones := by rw [hl3, hzs]
          constructor
          · rw [List.count_append, hl2]
            have hmap : (zones.map Request.getRecords).count Request.getZones = 0 := by
              rw [List.count_eq_zero]
              simp [List.mem_map]
            rcases hr1 with h' | h' <;> simp [h', hmap]
          · intro z
            rw [List.count_append, hl2, hczones]
            have hinj : Function.Injective Request.getRecords := by
              intro a b hab
              cases hab
              rfl
            rw [List.count_map_of_injective _ _ hinj]
            have hr1z : r1.count (Request.getRecords z) = 0 := by
              rcases hr1 with h' | h' <;> simp [h']
            omega
        next hlook => simp at h
  · split at h
    next hlook =>
      simp only [Prod.mk.injEq, Except.ok.injEq] at h
      obtain ⟨h1, h2, h3⟩ := h
      subst h3
      simp
    next hlook => simp at h

/-- Claim C2 (amended): when a `fetch_cloudflare_dns_record` call succeeds, an
immediately following call for the same (domain, type) with no intervening
update is a pure cache hit — it issues no requests and leaves the cache
unchanged — so across the two calls at most one `GET zones` request and at
most one `GET zones/{zone}/dns_records` request per cached zone occurrence
are issued. -/
theorem c2_resolver_idempotent_after_success :
    ∀ (env : Env) (c0 : Cache) (domain record_type : String)
      (rec : DnsRecord) (c1 : Cache) (r1 : List Request),
      fetch_cloudflare_dns_record env c0 domain record_type = (.ok rec, c1, r1) →
      fetch_cloudflare_dns_record env c1 domain record_type = (.ok rec, c1, [])
      ∧ (r1 ++ []).count Request.getZones ≤ 1
      ∧ ∀ z : String, (r1 ++ []).count (Request.getRecords z) ≤ c1.zones.count z := by
  intro env c0 domain record_type rec c1 r1 h
  obtain ⟨hcz, hcr⟩ := fetch_ok_counts h
  refine ⟨fetch_hit env (fetch_ok_caches h), ?_, ?_⟩
  · simpa using hcz
  · simpa using hcr

/-- A provider environment with one zone `"z1"` holding no records at all. -/
def envNoRecords : Env where
  zonesResult := .ok [⟨"z1"⟩]
  recordsResult := fun _ => .ok []
  putResult := fun _ _ => .error "unused"

/-- Counterexample for C2 as stated: with one cached zone and no record for
(`"d"`, `"A"`), the first resolve fails with not-found, so the second resolve
scans the zone again — two `GET .../dns_records` requests for the single
cached zone `"z1"` across the two consecutive calls, exceeding the claimed
at-most-one per cached zone. -/
theorem c2_counterexample_refetch_after_not_found :
    ((fetch_cloudflare_dns_record envNoRecords Cache.new "d" "A").2.2 ++
      (fetch_cloudflare_dns_record envNoRecords
        (fetch_cloudflare_dns_record envNoRecords Cache.new "d" "A").2.1 "d" "A").2.2).count
      (Request.getRecords "z1") = 2
    ∧ (fetch_cloudflare_dns_record envNoRecords
        (fetch_cloudflare_dns_record envNoRecords Cache.new "d" "A").2.1 "d" "A").2.1.zones.count
        "z1" = 1 := by
  constructor
  · rfl
  · rfl

/-- A provider environment with one zone `"z1"` holding the A record of the
domain `"d"`. -/
def envOneRecord : Env where
  zonesResult := .ok [⟨"z1"⟩]
  recordsResult := fun z => if z = "z1" then .ok [⟨"r1", "d", "1.1.1.1", "A"⟩] else .ok []
  putResult := fun _ _ => .error "unused"

/-- Witness for C2: the amended theorem applied at a concrete environment in
which the first resolve succeeds. -/
theorem c2_witness :
    fetch_cloudflare_dns_record envOneRecord
      (fetch_cloudflare_dns_record envOneRecord Cache.new "d" "A").2.1 "d" "A" =
      (.ok ⟨"r1", "z1", "1.1.1.1"⟩,
       (fetch_cloudflare_dns_record envOneRecord Cache.new "d" "A").2.1, [])
    ∧ (((fetch_cloudflare_dns_record envOneRecord Cache.new "d" "A").2.2 ++ []).count
        Request.getZones ≤ 1)
    ∧ ∀ z : String,
        ((fetch_cloudflare_dns_record envOneRecord Cache.new "d" "A").2.2 ++ []).count
          (Request.getRecords z) ≤
        (fetch_cloudflare_dns_record envOneRecord Cache.new "d" "A").2.1.zones.count z :=
  c2_resolver_idempotent_after_success envOneRecord Cache.new "d" "A"
    ⟨"r1", "z1", "1.1.1.1"⟩
    (fetch_cloudflare_dns_record envOneRecord Cache.new "d" "A").2.1
    (fetch_cloudflare_dns_record envOneRecord Cache.new "d" "A").2.2
    (by rfl)

/-! ## Claims about the reconciliation run -/

theorem fetch_zone_error {env : Env} {e : String} {c : Cache} {d t : String}
    (henv : env.zonesResult = .error e) (hz : c.zones = [])
    (hr : c.get_dns_record d t = none) :
    fetch_cloudflare_dns_record env c d t = (.error e, c, [.getZones]) := by
  simp [fetch_cloudflare_dns_record, fetch_cloudflare_zones, hr, henv,
    Cache.zones_cached, hz]

theorem check_zone_error {env : Env} {e : String} {c : Cache}
    {name t new_ip : String} {force : Bool}
    (henv : env.zonesResult = .error e) (hz : c.zones = [])
    (hr : c.get_dns_record name t = none) :
    check_and_conditionally_update_domain env c name t new_ip force =
      (c, [.getZones], [name ++ ": No DNS Record Found (Update IP: " ++ new_ip ++ ")"]) := by
  unfold check_and_conditionally_update_domain
  rw [fetch_zone_error henv hz hr]

theorem processRegistration_zone_error {env : Env} {e v4_ip v6_ip : String}
    (force : Bool) {c : Cache} {r : DomainRegistration}
    (henv : env.zonesResult = .error e) (hz : c.zones = [])
    (hr : ∀ d t, c.get_dns_record d t = none)
    (hsuf : registrationSuffixesOk v4_ip v6_ip r = true) :
    ∃ reports : List String,
      processRegistration env v4_ip v6_ip force c r =
        some (c, List.replicate (registrationEnabledCount r) Request.getZones, reports)
      ∧ reports.length = registrationEnabledCount r := by
  unfold registrationSuffixesOk at hsuf
  unfold processRegistration
  cases hv4 : r.v4_disabled with
  | true =>
    cases hv6 : r.v6_disabled with
    | true =>
      refine ⟨[], ?_, by simp [registrationEnabledCount, hv4, hv6]⟩
      simp [registrationEnabledCount, hv4, hv6]
    | false =>
      rw [hv4, hv6] at hsuf
      simp only [Bool.true_or, Bool.false_or, Bool.true_and] at hsuf
      obtain ⟨ip6, hip6⟩ := Option.isSome_iff_exists.mp hsuf
      refine ⟨[r.domain ++ ": No DNS Record Found (Update IP: " ++ ip6 ++ ")"], ?_, ?_⟩
      · simp only [hip6, if_pos rfl, Bool.false_eq_true, if_false, if_true,
          eq_self_iff_true]
        rw [check_zone_error henv hz (hr r.domain "AAAA")]
        simp [registrationEnabledCount, hv4, hv6]
      · simp [registrationEnabledCount, hv4, hv6]
  | false =>
    rw [hv4] at hsuf
    simp only [Bool.false_or, Bool.false_eq_true] at hsuf
    obtain ⟨hsuf4, hsuf6⟩ := Bool.and_eq_true_iff.mp hsuf
    obtain ⟨ip4, hip4⟩ := Option.isSome_iff_exists.mp hsuf4
    cases hv6 : r.v6_disabled with
    | true =>
      refine ⟨[r.domain ++ ": No DNS Record Found (Update IP: " ++ ip4 ++ ")"], ?_, ?_⟩
      · simp only [hip4, if_pos rfl, Bool.false_eq_true, if_false, if_true,
          eq_self_iff_true]
        rw [check_zone_error henv hz (hr r.domain "A")]
        simp [registrationEnabledCount, hv4, hv6]
      · simp [registrationEnabledCount, hv4, hv6]
    | false =>
      rw [hv6] at hsuf6
      simp only [Bool.false_or] at hsuf6
      obtain ⟨ip6, hip6⟩ := Option.isSome_iff_exists.mp hsuf6
      refine ⟨[r.domain ++ ": No DNS Record Found (Update IP: " ++ ip4 ++ ")",
               r.domain ++ ": No DNS Record Found (Update IP: " ++ ip6 ++ ")"], ?_, ?_⟩
      · simp only [hip4, hip6, Bool.false_eq_true, if_false]
        rw [check_zone_error henv hz (hr r.domain "A"),
            check_zone_error henv hz (hr r.domain "AAAA")]
        simp [registrationEnabledCount, hv4, hv6]
      · simp [registrationEnabledCount, hv4, hv6]

theorem enabledCount_cons (r : DomainRegistration) (rs : List DomainRegistration) :
    enabledCount (r :: rs) = registrationEnabledCount r + enabledCount rs := by
  simp [enabledCount]

theorem runDomainLoop_zone_error {env : Env} {e v4_ip v6_ip : String} {force : Bool}
    (henv : env.zonesResult = .error e) :
    ∀ (ds : List DomainRegistration) (c : Cache), c.zones = [] →
      (∀ d t, c.get_dns_record d t = none) →
      (∀ r ∈ ds, registrationSuffixesOk v4_ip v6_ip r = true) →
      ∃ reports : List String,
        runDomainLoop env v4_ip v6_ip force c ds =
          some (c, List.replicate (enabledCount ds) Request.getZones, reports)
        ∧ reports.length = enabledCount ds := by
  intro ds
  induction ds with
  | nil =>
    intro c _ _ _
    exact ⟨[], by simp [runDomainLoop, enabledCount], rfl⟩
  | cons r rs ih =>
    intro c hz hr hsuf
    obtain ⟨p1, hp1, hl1⟩ :=
      processRegistration_zone_error force henv hz hr
        (hsuf r (List.mem_cons_self r rs))
    obtain ⟨p2, hp2, hl2⟩ :=
      ih c hz hr (fun r' h' => hsuf r' (List.mem_cons.mpr (Or.inr h')))
    refine ⟨p1 ++ p2, ?_, by simp [hl1, hl2, enabledCount_cons]⟩
    simp only [runDomainLoop, hp1, hp2]
    rw [enabledCount_cons, List.replicate_add]

/-- Claim C6 (amended): a failure fetching the zone list does not abort the
run — the loop still attempts a record lookup (one `GET zones` each) for
every enabled (domain, type) pair of every remaining registration, reporting
each as not found, and no update (no PUT) is attempted; and in general a
failed registration never stops the loop: whatever one registration's
processing produced, the remaining registrations are still processed and
their outputs appended. -/
theorem c6_zone_failure_does_not_abort :
    (∀ (env : Env) (e v4_ip v6_ip : String) (force : Bool)
      (ds : List DomainRegistration),
      env.zonesResult = .error e →
      (∀ r ∈ ds, registrationSuffixesOk v4_ip v6_ip r = true) →
      ∃ reports : List String,
        runDomainLoop env v4_ip v6_ip force Cache.new ds =
          some (Cache.new, List.replicate (enabledCount ds) Request.getZones, reports)
        ∧ reports.length = enabledCount ds)
    ∧ (∀ (env : Env) (v4_ip v6_ip : String) (force : Bool) (c : Cache)
        (r : DomainRegistration) (rs : List DomainRegistration)
        (c1 : Cache) (q1 : List Request) (p1 : List String)
        (c2 : Cache) (q2 : List Request) (p2 : List String),
        processRegistration env v4_ip v6_ip force c r = some (c1, q1, p1) →
        runDomainLoop env v4_ip v6_ip force c1 rs = some (c2, q2, p2) →
        runDomainLoop env v4_ip v6_ip force c (r :: rs) =
          some (c2, q1 ++ q2, p1 ++ p2)) := by
  constructor
  · intro env e v4_ip v6_ip force ds henv hsuf
    exact runDomainLoop_zone_error henv ds Cache.new rfl (fun _ _ => rfl) hsuf
  · intro env v4_ip v6_ip force c r rs c1 q1 p1 c2 q2 p2 h1 h2
    simp [runDomainLoop, h1, h2]

/-- A provider environment whose zone listing always fails. -/
def envZoneFail : Env where
  zonesResult := .error "zone fetch failed"
  recordsResult := fun _ => .ok []
  putResult := fun _ _ => .error "unused"

/-- Two v4-only registrations with no suffixes. -/
def regA : DomainRegistration := ⟨"a.example", false, none, true, none⟩

def regB : DomainRegistration := ⟨"b.example", false, none, true, none⟩

/-- Counterexample for C6 as stated: with zone fetching failing, the run does
not abort after the first domain — a second record lookup (second
`GET zones`) is attempted for the remaining domain and a second report is
produced. -/
theorem c6_counterexample_lookup_after_zone_failure :
    runDomainLoop envZoneFail "1.2.3.4" "fe80::1" false Cache.new [regA, regB] =
      some (Cache.new, [Request.getZones, Request.getZones],
        ["a.example: No DNS Record Found (Update IP: 1.2.3.4)",
         "b.example: No DNS Record Found (Update IP: 1.2.3.4)"]) := rfl

/-- Witness for C6 at a concrete input. -/
theorem c6_witness :
    ∃ reports : List String,
      runDomainLoop envZoneFail "1.2.3.4" "fe80::1" false Cache.new [regA] =
        some (Cache.new, List.replicate (enabledCount [regA]) Request.getZones, reports)
      ∧ reports.length = enabledCount [regA] :=
  c6_zone_failure_does_not_abort.1 envZoneFail "zone fetch failed" "1.2.3.4" "fe80::1"
    false [regA] (by rfl) (by decide)

/-- Claim C9: when the persisted v4 and v6 addresses equal the fresh ones and
force is unset, the run skips all per-domain work iff fewer than 12 hours
(43200 seconds) have elapsed since the persisted last-update timestamp;
otherwise — 12 or more hours elapsed, or force set — the full per-domain
loop runs. -/
theorem c9_short_circuit_twelve_hours :
    ∀ (cfg : String → Option String) (now : Nat) (env : Env) (v4_ip v6_ip : String)
      (ds : List DomainRegistration) (s : String) (t : Nat),
      cfg "last_ipv4" = some v4_ip →
      cfg "last_ipv6" = some v6_ip →
      cfg "last_update" = some s →
      parseU64 s = some t →
      ((now < t + 43200 →
        update_domains cfg now env v4_ip v6_ip false ds = some (true, Cache.new, [], []))
      ∧ (t + 43200 ≤ now →
        update_domains cfg now env v4_ip v6_ip false ds =
          (runDomainLoop env v4_ip v6_ip false Cache.new ds).map (fun x => (false, x)))
      ∧ (update_domains cfg now env v4_ip v6_ip true ds =
          (runDomainLoop env v4_ip v6_ip true Cache.new ds).map (fun x => (false, x)))) := by
  intro cfg now env v4_ip v6_ip ds s t h1 h2 h3 h4
  have hbind : (cfg "last_update").bind parseU64 = some t := by
    rw [h3]
    exact h4
  refine ⟨?_, ?_, ?_⟩
  · intro hlt
    unfold update_domains
    rw [if_pos ⟨h1, h2, rfl⟩]
    simp only [hbind, Option.getD_some]
    rw [if_pos (by omega : t + 60 * 60 * 12 > now)]
  · intro hge
    unfold update_domains
    rw [if_pos ⟨h1, h2, rfl⟩]
    simp only [hbind, Option.getD_some]
    rw [if_neg (by omega : ¬t + 60 * 60 * 12 > now)]
  · unfold update_domains
    rw [if_neg (by simp)]

/-- A config map recording unchanged addresses and a last update at epoch
second 1000000. -/
def cfgRecent : String → Option String := fun k =>
  if k = "last_ipv4" then some "198.51.100.7"
  else if k = "last_ipv6" then some "2001:db8::7"
  else if k = "last_update" then some "1000000"
  else none

/-- A provider environment that is never consulted on the skip path. -/
def envIdle : Env where
  zonesResult := .error "unused"
  recordsResult := fun _ => .error "unused"
  putResult := fun _ _ => .error "unused"

/-- Witness for C9 at a concrete input on the skip path: 500 seconds after
the recorded last update, with unchanged addresses and no force, the run
does no per-domain work. -/
theorem c9_witness :
    update_domains cfgRecent 1000500 envIdle "198.51.100.7" "2001:db8::7" false [] =
      some (true, Cache.new, [], []) :=
  (c9_short_circuit_twelve_hours cfgRecent 1000500 envIdle "198.51.100.7" "2001:db8::7"
    [] "1000000" 1000000 (by rfl) (by rfl) (by rfl) (by rfl)).1 (by omega)
